import Mathlib

/-!
Verification development for the FeedbackTrader repository.

The Python modules under src are embedded shallowly:

- src/data/adapters/csv_adapter.py  -> namespace CsvAdapter
- src/data/adapters/akshare_adapter.py -> namespace AkshareAdapter
- src/data/adapters/yfinance_adapter.py -> namespace YfinanceAdapter
- tests/akfinance.py (class AKFinance) -> namespace AKFinance
- src/strategy/SimpleMovingAverage.py -> namespace MovingAverage
- src/data/fetcher.py (not in the snapshot) -> namespace Fetcher, modelled from the spec

Time stamps are modelled as natural numbers (a DatetimeIndex entry is an
abstract time key, and pd.to_datetime on such a key is the identity).
Numeric cells are modelled as rationals. A pandas DataFrame of bars is a
list of columns plus a list of (time key, cells) rows in file order.
Exceptions are modelled with Except; a Python function that catches every
exception and returns a value is a total function into the ok side.
-/

/-- Lower-case a string character by character, the model of str.lower(). -/
def lowerStr (s : String) : String := ⟨s.data.map Char.toLower⟩

/-- Check that the first list is an initial segment of the second. -/
def leadEq : List Char → List Char → Bool
  | [], _ => true
  | _ :: _, [] => false
  | a :: as, b :: bs => a == b && leadEq as bs

/-- Check that the needle occurs contiguously inside the haystack. -/
def subIn (needle : List Char) : List Char → Bool
  | [] => needle.isEmpty
  | b :: bs => leadEq needle (b :: bs) || subIn needle bs

/-- Model of the Python substring test: needle in hay. -/
def strContains (hay needle : String) : Bool := subIn needle.data hay.data

/-- Model of the Python test s.endswith(suf). -/
def endsIn (s suf : String) : Bool := leadEq suf.data.reverse s.data.reverse

/-- One DataFrame of bars: column names plus rows of (time key, cells), in file order. -/
structure CsvFile where
  columns : List String
  rows : List (Nat × List Rat)
deriving DecidableEq

/-- Model of pd.DataFrame(): no columns, no rows. -/
def emptyFrame : CsvFile := { columns := [], rows := [] }

/-- State of a path on disk: absent, present but unreadable by pd.read_csv, or readable. -/
inductive FileState where
  | missing
  | unreadable
  | readable (f : CsvFile)
deriving DecidableEq

/-- The error taxonomy of src/data/exceptions.py as raised by the adapters:
RateLimitError for provider throttling, AdapterError for everything else. -/
inductive FetchError where
  | rateLimitError (msg : String)
  | adapterError (msg : String)
deriving DecidableEq

/-- Keyword test shared by akshare_adapter.py line 48 and yfinance_adapter.py line 31:
the lower-cased message contains rate, limit, or too many requests. -/
def hasRateKeyword (msg : String) : Bool :=
  let m := lowerStr msg
  strContains m "rate" || strContains m "limit" || strContains m "too many requests"

/-- Classification of a generic provider exception by its message, the except blocks of
akshare_adapter.py lines 45-50 and yfinance_adapter.py lines 27-33. -/
def classifyProviderError (msg : String) : FetchError :=
  if hasRateKeyword msg then .rateLimitError msg else .adapterError msg

namespace CsvAdapter

/-- Path resolution of csv_adapter.py lines 19-23: a symbol ending in .csv is used
directly as the path, otherwise base joined with symbol.csv. -/
def resolvePath (symbol base : String) : String :=
  if endsIn (lowerStr symbol) ".csv" then symbol
  else base ++ "/" ++ symbol ++ ".csv"

/-- Column rename table of csv_adapter.py lines 36-53, applied per column name. -/
def renameColumn (c : String) : String :=
  let lc := lowerStr c
  if lc = "open" ∨ lc = "open_price" then "Open"
  else if lc = "high" then "High"
  else if lc = "low" then "Low"
  else if lc = "close" ∨ lc = "close_price" then "Close"
  else if lc = "adj close" ∨ lc = "adj_close" ∨ lc = "adjclose" then "Adj Close"
  else if lc = "volume" ∨ lc = "vol" then "Volume"
  else c

/-- Body of csv_adapter.py lines 35-66 after a successful read: rename columns,
keep the time index, then filter rows by the optional start and end bounds. -/
def loadFrame (f : CsvFile) (startD endD : Option Nat) : CsvFile :=
  let f1 : CsvFile := { columns := f.columns.map renameColumn, rows := f.rows }
  let f2 : CsvFile :=
    match startD with
    | none => f1
    | some a => { f1 with rows := f1.rows.filter (fun r => decide (a ≤ r.1)) }
  match endD with
  | none => f2
  | some b => { f2 with rows := f2.rows.filter (fun r => decide (r.1 ≤ b)) }

/-- csv_adapter.py fetch. A missing path returns an empty frame (line 27); a read
failure is caught and returns an empty frame (lines 29-33); otherwise the frame is
renamed and range-filtered. The function never produces a FetchError. -/
def fetch (fs : String → FileState) (symbol : String) (startD endD : Option Nat)
    (base : String) : Except FetchError CsvFile :=
  match fs (resolvePath symbol base) with
  | .missing => .ok emptyFrame
  | .unreadable => .ok emptyFrame
  | .readable f => .ok (loadFrame f startD endD)

/-- Combined inclusive range predicate: an absent bound filters nothing on its side. -/
def inRange (startD endD : Option Nat) (t : Nat) : Bool :=
  (match startD with | none => true | some a => decide (a ≤ t)) &&
  (match endD with | none => true | some b => decide (t ≤ b))

/-- Rows kept by loadFrame form a sublist of the source rows: the adapter filters
but never reorders, duplicates or invents rows. -/
theorem loadFrame_rows_sublist (f : CsvFile) (startD endD : Option Nat) :
    (loadFrame f startD endD).rows.Sublist f.rows := by
  cases startD with
  | none =>
      cases endD with
      | none => simp [loadFrame]
      | some b => exact List.filter_sublist (l := f.rows)
  | some a =>
      cases endD with
      | none => exact List.filter_sublist (l := f.rows)
      | some b =>
          simp only [loadFrame]
          exact (List.filter_sublist _).trans (List.filter_sublist _)

end CsvAdapter

/-- C4: a symbol whose resolved path does not exist on disk makes the local-file
adapter return an empty Series without raising: csv_adapter.py lines 25-27. -/
theorem claim4_missing_file_empty (fs : String → FileState) (symbol : String)
    (startD endD : Option Nat) (base : String)
    (h : fs (CsvAdapter.resolvePath symbol base) = .missing) :
    CsvAdapter.fetch fs symbol startD endD base = .ok emptyFrame := by
  simp [CsvAdapter.fetch, h]

/-- Witness for C4 at a concrete filesystem with no files. -/
theorem claim4_witness :
    (fun _ : String => FileState.missing) (CsvAdapter.resolvePath "AAPL" "data/csv")
        = FileState.missing ∧
    CsvAdapter.fetch (fun _ => FileState.missing) "AAPL" none none "data/csv"
        = .ok emptyFrame :=
  ⟨rfl, claim4_missing_file_empty (fun _ => FileState.missing) "AAPL" none none "data/csv" rfl⟩

/-- C7: on a readable file the local-file adapter returns exactly the rows whose
time key lies in the inclusive range, with open bounds filtering nothing:
csv_adapter.py lines 59-63. -/
theorem claim7_date_range_filter (fs : String → FileState) (symbol : String)
    (startD endD : Option Nat) (base : String) (f : CsvFile)
    (h : fs (CsvAdapter.resolvePath symbol base) = .readable f) :
    CsvAdapter.fetch fs symbol startD endD base =
      .ok { columns := f.columns.map CsvAdapter.renameColumn,
            rows := f.rows.filter (fun r => CsvAdapter.inRange startD endD r.1) } := by
  cases startD with
  | none =>
      cases endD with
      | none => simp [CsvAdapter.fetch, CsvAdapter.loadFrame, CsvAdapter.inRange, h]
      | some b => simp [CsvAdapter.fetch, CsvAdapter.loadFrame, CsvAdapter.inRange, h]
  | some a =>
      cases endD with
      | none => simp [CsvAdapter.fetch, CsvAdapter.loadFrame, CsvAdapter.inRange, h]
      | some b =>
          simp only [CsvAdapter.fetch, CsvAdapter.loadFrame, CsvAdapter.inRange, h,
            List.filter_filter]
          refine congrArg Except.ok (congrArg _ ?_)
          refine List.filter_congr ?_
          intro r _
          exact Bool.and_comm _ _

/-- Concrete three-row file used by the C7 witness. -/
def exFile7 : CsvFile := { columns := ["close"], rows := [(1, [10]), (2, [20]), (3, [30])] }

/-- Concrete filesystem holding only a.csv, used by the C7 witness. -/
def exFs7 : String → FileState :=
  fun p => if p = "a.csv" then .readable exFile7 else .missing

/-- Witness for C7: a three-row file filtered to the inclusive range [2, 3]. -/
theorem claim7_witness :
    exFs7 (CsvAdapter.resolvePath "a.csv" "data/csv") = FileState.readable exFile7 ∧
    CsvAdapter.fetch exFs7 "a.csv" (some 2) (some 3) "data/csv" =
      .ok { columns := exFile7.columns.map CsvAdapter.renameColumn,
            rows := exFile7.rows.filter (fun r => CsvAdapter.inRange (some 2) (some 3) r.1) } :=
  ⟨by decide, claim7_date_range_filter exFs7 "a.csv" (some 2) (some 3) "data/csv" exFile7 (by decide)⟩

/-- Concrete file whose rows are out of time order, used against C3. -/
def exFile3 : CsvFile := { columns := ["Close"], rows := [(2, [1]), (1, [2])] }

/-- Concrete filesystem holding only the out-of-order file, used against C3. -/
def exFs3 : String → FileState :=
  fun p => if p = "a.csv" then .readable exFile3 else .missing

/-- C3 is false on the code: csv_adapter.py converts the index to datetime
(lines 56-57) but never sorts or deduplicates it, so a file whose rows are out
of order comes back with a non-ascending index. -/
theorem claim3_counterexample_unsorted_source :
    CsvAdapter.fetch exFs3 "a.csv" none none "data/csv" = .ok exFile3 ∧
    ¬ List.Pairwise (fun a b => a < b) (exFile3.rows.map Prod.fst) := by
  constructor
  · rfl
  · decide

/-- C3 amended: every adapter result keeps a genuine time index, and the
local-file adapter preserves source row order, so the index is strictly
ascending and duplicate-free whenever the source file rows already are. -/
theorem claim3_amended_order_preserved (fs : String → FileState) (symbol : String)
    (startD endD : Option Nat) (base : String) (f : CsvFile)
    (hread : fs (CsvAdapter.resolvePath symbol base) = .readable f)
    (hasc : List.Pairwise (fun a b => a < b) (f.rows.map Prod.fst)) :
    ∃ g, CsvAdapter.fetch fs symbol startD endD base = .ok g ∧
      List.Pairwise (fun a b => a < b) (g.rows.map Prod.fst) := by
  refine ⟨CsvAdapter.loadFrame f startD endD, by simp [CsvAdapter.fetch, hread], ?_⟩
  have hsub : ((CsvAdapter.loadFrame f startD endD).rows.map Prod.fst).Sublist
      (f.rows.map Prod.fst) :=
    (CsvAdapter.loadFrame_rows_sublist f startD endD).map Prod.fst
  exact hasc.sublist hsub

/-- Witness for the amended C3 on a sorted two-row file. -/
theorem claim3_amended_witness :
    exFs7 (CsvAdapter.resolvePath "a.csv" "data/csv") = FileState.readable exFile7 ∧
    List.Pairwise (fun a b => a < b) (exFile7.rows.map Prod.fst) ∧
    (∃ g, CsvAdapter.fetch exFs7 "a.csv" (some 1) none "data/csv" = .ok g ∧
      List.Pairwise (fun a b => a < b) (g.rows.map Prod.fst)) :=
  ⟨by decide, by decide,
    claim3_amended_order_preserved exFs7 "a.csv" (some 1) none "data/csv" exFile7
      (by decide) (by decide)⟩

/-- Outcome of one call into the underlying provider package: a DataFrame, or a
raised exception carrying a message. -/
inductive ProviderResult where
  | ok (df : CsvFile)
  | raiseErr (msg : String)
deriving DecidableEq

namespace AkshareAdapter

/-- Environment of akshare_adapter.py: whether import akshare succeeds
(lines 17-21) and the behaviour of ak.stock_zh_a_daily (line 26), as a function
of symbol, start date and end date. -/
structure Env where
  installed : Bool
  daily : String → String → String → ProviderResult

/-- akshare_adapter.py fetch, lines 9-50. The lazy import failure becomes
AdapterError with message akshare is not installed; only the 1d and daily
intervals reach the provider; an empty provider frame returns empty; any other
interval raises AdapterError, re-raised unchanged by the except AdapterError
clause; a generic provider exception is classified by its message keywords. -/
def fetch (env : Env) (symbol startD endD interval : String) : Except FetchError CsvFile :=
  if env.installed then
    if interval = "1d" ∨ interval = "daily" then
      match env.daily symbol startD endD with
      | .ok df => if df.rows.isEmpty then .ok emptyFrame else .ok df
      | .raiseErr msg => .error (classifyProviderError msg)
    else
      .error (.adapterError ("Interval not supported by akshare adapter: " ++ interval))
  else
    .error (.adapterError "akshare is not installed")

end AkshareAdapter

namespace YfinanceAdapter

/-- Body of yfinance_adapter.py fetch, lines 15-33, given the outcome of
yf.download: an empty or missing frame returns empty, a raised exception is
classified by its message keywords. -/
def fetchBody (download : ProviderResult) : Except FetchError CsvFile :=
  match download with
  | .ok df => if df.rows.isEmpty then .ok emptyFrame else .ok df
  | .raiseErr msg => .error (classifyProviderError msg)

/-- What a caller of the yfinance adapter observes, including the top-level
package load at line 1 of yfinance_adapter.py, which runs before any fetch. -/
inductive CallResult where
  | value (f : CsvFile)
  | rateLimited (msg : String)
  | adapterFail (msg : String)
  | importFailure (msg : String)
deriving DecidableEq

/-- Calling into yfinance_adapter.py: when the yfinance package is absent the
module import itself raises ModuleNotFoundError, so no AdapterError is ever
produced; otherwise fetch runs and its classified outcome is observed. -/
def adapterCall (installed : Bool) (download : ProviderResult) : CallResult :=
  if installed then
    match fetchBody download with
    | .ok f => .value f
    | .error (.rateLimitError m) => .rateLimited m
    | .error (.adapterError m) => .adapterFail m
  else
    .importFailure "No module named yfinance"

end YfinanceAdapter

/-- Environment in which akshare is installed and every provider call raises the
given message, used to state the classification claims. -/
def akRaisingEnv (msg : String) : AkshareAdapter.Env :=
  { installed := true, daily := fun _ _ _ => .raiseErr msg }

/-- C2: a provider exception is classified by both remote adapters in the same
way, RateLimitError exactly when the lower-cased message contains rate, limit or
too many requests, AdapterError otherwise, so exactly one of the two taxonomy
kinds crosses the adapter boundary. -/
theorem claim2_provider_errors_classified (msg symbol startD endD : String) :
    (hasRateKeyword msg = true ∧
      AkshareAdapter.fetch (akRaisingEnv msg) symbol startD endD "1d"
        = .error (.rateLimitError msg) ∧
      YfinanceAdapter.fetchBody (.raiseErr msg) = .error (.rateLimitError msg)) ∨
    (hasRateKeyword msg = false ∧
      AkshareAdapter.fetch (akRaisingEnv msg) symbol startD endD "1d"
        = .error (.adapterError msg) ∧
      YfinanceAdapter.fetchBody (.raiseErr msg) = .error (.adapterError msg)) := by
  cases h : hasRateKeyword msg with
  | true =>
      exact Or.inl ⟨rfl, by simp [AkshareAdapter.fetch, akRaisingEnv, classifyProviderError, h],
        by simp [YfinanceAdapter.fetchBody, classifyProviderError, h]⟩
  | false =>
      exact Or.inr ⟨rfl, by simp [AkshareAdapter.fetch, akRaisingEnv, classifyProviderError, h],
        by simp [YfinanceAdapter.fetchBody, classifyProviderError, h]⟩

/-- C5: with the provider package present, any interval other than 1d or daily
makes the exchange-API adapter fail with the interval-not-supported
AdapterError and return no data: akshare_adapter.py lines 24-41. -/
theorem claim5_unsupported_interval (env : AkshareAdapter.Env)
    (symbol startD endD interval : String)
    (hinst : env.installed = true)
    (h1 : interval ≠ "1d") (h2 : interval ≠ "daily") :
    AkshareAdapter.fetch env symbol startD endD interval =
      .error (.adapterError ("Interval not supported by akshare adapter: " ++ interval)) := by
  simp [AkshareAdapter.fetch, hinst, h1, h2]

/-- Witness for C5 at the interval 1h. -/
theorem claim5_witness :
    (akRaisingEnv "boom").installed = true ∧ ("1h" : String) ≠ "1d" ∧ ("1h" : String) ≠ "daily" ∧
    AkshareAdapter.fetch (akRaisingEnv "boom") "sh600000" "20200101" "20251112" "1h" =
      .error (.adapterError ("Interval not supported by akshare adapter: " ++ "1h")) :=
  ⟨rfl, by decide, by decide,
    claim5_unsupported_interval (akRaisingEnv "boom") "sh600000" "20200101" "20251112" "1h"
      rfl (by decide) (by decide)⟩

/-- C6 is false on the code for the installed-package adapter:
yfinance_adapter.py imports yfinance at module level (line 1), so a missing
package surfaces as an unclassified import failure, not as AdapterError. -/
theorem claim6_counterexample_import_crash :
    YfinanceAdapter.adapterCall false (.ok emptyFrame)
      = .importFailure "No module named yfinance" ∧
    YfinanceAdapter.adapterCall false (.ok emptyFrame)
      ≠ .adapterFail "yfinance is not installed" := by
  constructor
  · rfl
  · decide

/-- C6 amended: the exchange-API adapter classifies a missing provider package
as AdapterError with message akshare is not installed (akshare_adapter.py lines
17-21), while the installed-package adapter imports its package at module load,
so a missing package there raises at import time instead. -/
theorem claim6_amended_missing_dependency
    (daily : String → String → String → ProviderResult)
    (download : ProviderResult) (symbol startD endD interval : String) :
    AkshareAdapter.fetch { installed := false, daily := daily } symbol startD endD interval
      = .error (.adapterError "akshare is not installed") ∧
    YfinanceAdapter.adapterCall false download = .importFailure "No module named yfinance" := by
  constructor
  · simp [AkshareAdapter.fetch]
  · rfl

/-- Concrete filesystem whose only file cannot be parsed, used against C9. -/
def exFsBad : String → FileState :=
  fun p => if p = "bad.csv" then .unreadable else .missing

/-- C9 is false on the code for the local-file adapter: a read failure is caught
at csv_adapter.py lines 29-33 and swallowed into an empty frame returned as a
success, instead of crossing the boundary as AdapterError. -/
theorem claim9_counterexample_swallowed_read_error :
    CsvAdapter.fetch exFsBad "bad.csv" none none "data/csv" = .ok emptyFrame ∧
    CsvAdapter.fetch exFsBad "bad.csv" none none "data/csv"
      ≠ .error (.adapterError "could not parse bad.csv") := by
  constructor
  · rfl
  · intro h
    exact Except.noConfusion h

/-- C9 amended: the two remote adapters classify every provider exception into
the two-kind taxonomy by the keyword rule, while the local-file adapter never
raises at all: every fetch on any filesystem returns ok, with read failures
degraded to an empty frame. -/
theorem claim9_amended_classified_or_empty (fs : String → FileState)
    (symbol : String) (startD endD : Option Nat) (base : String)
    (msg symbol2 startD2 endD2 : String) :
    (∃ f, CsvAdapter.fetch fs symbol startD endD base = .ok f) ∧
    AkshareAdapter.fetch (akRaisingEnv msg) symbol2 startD2 endD2 "1d"
      = .error (classifyProviderError msg) ∧
    YfinanceAdapter.fetchBody (.raiseErr msg) = .error (classifyProviderError msg) := by
  refine ⟨?_, by simp [AkshareAdapter.fetch, akRaisingEnv], rfl⟩
  cases h : fs (CsvAdapter.resolvePath symbol base) with
  | missing => exact ⟨emptyFrame, by simp [CsvAdapter.fetch, h]⟩
  | unreadable => exact ⟨emptyFrame, by simp [CsvAdapter.fetch, h]⟩
  | readable f => exact ⟨CsvAdapter.loadFrame f startD endD, by simp [CsvAdapter.fetch, h]⟩

namespace AKFinance

/-- A raw provider DataFrame before the date column is turned into the index:
column names plus rows of cells, cell lists aligned with the columns. -/
structure RawFrame where
  cols : List String
  rows : List (List Rat)
deriving DecidableEq

/-- Column rename table of tests/akfinance.py lines 280-297 (base_mapping):
Chinese provider column names mapped to the canonical English ones. -/
def columnMapping (c : String) : String :=
  if c = "开盘" then "Open"
  else if c = "收盘" then "Close"
  else if c = "最高" then "High"
  else if c = "最低" then "Low"
  else if c = "成交量" then "Volume"
  else if c = "成交额" then "Amount"
  else if c = "振幅" then "Amplitude"
  else if c = "涨跌幅" then "Percent"
  else if c = "涨跌额" then "Change"
  else if c = "换手率" then "Turnover"
  else if c = "日期" then "Date"
  else if c = "时间" then "Time"
  else c

/-- Date column search of tests/akfinance.py lines 252-257: the first candidate
name present among the columns. -/
def findDateColumn (cols : List String) : Option String :=
  ["Date", "日期", "date", "datetime"].find? (fun c => decide (c ∈ cols))

/-- Necessary columns of tests/akfinance.py line 270. Adj Close is not among them. -/
def necessaryColumns : List String := ["Open", "High", "Low", "Close", "Volume"]

/-- One step of the missing-column loop at tests/akfinance.py lines 271-274: a
column not yet present is appended and zero-filled in every row. -/
def addColumnStep (f : RawFrame) (c : String) : RawFrame :=
  if c ∈ f.cols then f
  else { cols := f.cols ++ [c], rows := f.rows.map (fun r => r ++ [0]) }

/-- The whole missing-column loop over the necessary columns. -/
def addMissingColumns (f : RawFrame) : RawFrame :=
  necessaryColumns.foldl addColumnStep f

/-- AKFinance standardize of tests/akfinance.py lines 236-278: empty input
returns an empty frame; otherwise columns are renamed, the first date column
found becomes the index and leaves the columns, and missing necessary columns
are appended zero-filled. When no date column exists a synthetic daily index is
created and the columns are untouched. -/
def standardizeFrame (df : RawFrame) : RawFrame :=
  if df.rows.isEmpty then { cols := [], rows := [] }
  else
    let cols := df.cols.map columnMapping
    let f : RawFrame :=
      match findDateColumn cols with
      | some dc =>
          let i := cols.indexOf dc
          { cols := cols.eraseIdx i, rows := df.rows.map (fun r => r.eraseIdx i) }
      | none => { cols := cols, rows := df.rows }
    addMissingColumns f

/-- Membership in the columns survives one step of the missing-column loop. -/
theorem mem_addColumnStep_mono (f : RawFrame) (c x : String) (h : x ∈ f.cols) :
    x ∈ (addColumnStep f c).cols := by
  by_cases hc : c ∈ f.cols
  · simpa [addColumnStep, hc] using h
  · simp [addColumnStep, hc]
    exact Or.inl h

/-- The column just processed is present after its step. -/
theorem mem_addColumnStep_self (f : RawFrame) (c : String) :
    c ∈ (addColumnStep f c).cols := by
  by_cases hc : c ∈ f.cols
  · simp only [addColumnStep, if_pos hc]
    exact hc
  · simp [addColumnStep, hc]

/-- Membership in the columns survives the whole loop. -/
theorem mem_foldl_addColumnStep_mono (l : List String) (f : RawFrame) (x : String)
    (h : x ∈ f.cols) : x ∈ (l.foldl addColumnStep f).cols := by
  induction l generalizing f with
  | nil => exact h
  | cons c cs ih => exact ih (addColumnStep f c) (mem_addColumnStep_mono f c x h)

/-- Every column named in the loop list is present after the loop. -/
theorem mem_foldl_addColumnStep (l : List String) (f : RawFrame) (c : String)
    (h : c ∈ l) : c ∈ (l.foldl addColumnStep f).cols := by
  induction l generalizing f with
  | nil => cases h
  | cons d ds ih =>
      rcases List.mem_cons.mp h with hd | hds
      · subst hd
        exact mem_foldl_addColumnStep_mono ds (addColumnStep f c) c
          (mem_addColumnStep_self f c)
      · exact ih (addColumnStep f d) hds

end AKFinance

/-- Concrete provider frame without an adjusted close column, used against C8. -/
def exDf8 : AKFinance.RawFrame := { cols := ["日期", "开盘"], rows := [[1, 10]] }

/-- Concrete filesystem with a one-column close-only file, used against C8. -/
def exFsC8 : String → FileState :=
  fun p => if p = "c.csv" then .readable { columns := ["close"], rows := [(1, [5])] } else .missing

/-- C8 is false on the code: the AKFinance standardizer zero-fills only Open,
High, Low, Close and Volume (tests/akfinance.py line 270), never the adjusted
close column, and the local-file adapter only renames columns, synthesizing
nothing (csv_adapter.py lines 35-53). -/
theorem claim8_counterexample_no_adj_close :
    "Adj Close" ∉ (AKFinance.standardizeFrame exDf8).cols ∧
    CsvAdapter.fetch exFsC8 "c.csv" none none "data/csv"
      = .ok { columns := ["Close"], rows := [(1, [5])] } ∧
    "Open" ∉ (["Close"] : List String) := by
  refine ⟨by decide, rfl, by decide⟩

/-- C8 amended: on every nonempty input frame the AKFinance standardizer
guarantees the presence of the Open, High, Low, Close and Volume columns,
appending any missing one zero-filled; the adjusted close column is not
synthesized, and the local-file adapter does not synthesize columns at all. -/
theorem claim8_amended_necessary_columns (df : AKFinance.RawFrame)
    (h : df.rows ≠ []) :
    "Open" ∈ (AKFinance.standardizeFrame df).cols ∧
    "High" ∈ (AKFinance.standardizeFrame df).cols ∧
    "Low" ∈ (AKFinance.standardizeFrame df).cols ∧
    "Close" ∈ (AKFinance.standardizeFrame df).cols ∧
    "Volume" ∈ (AKFinance.standardizeFrame df).cols := by
  have hne : df.rows.isEmpty = false := by
    cases hr : df.rows with
    | nil => exact absurd hr h
    | cons a l => simp [hr]
  unfold AKFinance.standardizeFrame
  rw [hne]
  simp only [Bool.false_eq_true, if_false]
  refine ⟨?_, ?_, ?_, ?_, ?_⟩ <;>
    exact AKFinance.mem_foldl_addColumnStep AKFinance.necessaryColumns _ _ (by decide)

/-- Witness for the amended C8 on a one-row frame holding only a date and an
open column. -/
theorem claim8_amended_witness :
    exDf8.rows ≠ [] ∧
    ("Open" ∈ (AKFinance.standardizeFrame exDf8).cols ∧
     "High" ∈ (AKFinance.standardizeFrame exDf8).cols ∧
     "Low" ∈ (AKFinance.standardizeFrame exDf8).cols ∧
     "Close" ∈ (AKFinance.standardizeFrame exDf8).cols ∧
     "Volume" ∈ (AKFinance.standardizeFrame exDf8).cols) :=
  ⟨by decide, claim8_amended_necessary_columns exDf8 (by decide)⟩

namespace Fetcher

/-- Modelled from the spec: the cache key of the Fetch Dispatcher in
src/data/fetcher.py, which is not part of the repository snapshot (only its
caller scripts/fetch_akshare_save.py is). Spec section 3: derived
deterministically from (symbol, source, interval). -/
abbrev CacheKey := String × String × String

/-- Modelled from the spec: the observable state of the dispatcher, the on-disk
Cache Store (spec section 4.4) plus a call counter on the provider adapter,
the call-count instrumentation named by the spec in section 8. -/
structure FetcherState where
  store : List (CacheKey × CsvFile)
  adapterCalls : Nat
deriving DecidableEq

/-- Modelled from the spec: Cache Store get (spec section 4.4), the stored
artifact for the key when one exists. -/
def cacheGet : List (CacheKey × CsvFile) → CacheKey → Option CsvFile
  | [], _ => none
  | e :: rest, k => if e.1 = k then some e.2 else cacheGet rest k

/-- Modelled from the spec: Cache Store put (spec sections 3 and 4.4), the
entry for the key is replaced wholesale. -/
def cachePut (c : List (CacheKey × CsvFile)) (k : CacheKey) (v : CsvFile) :
    List (CacheKey × CsvFile) :=
  (k, v) :: c.filter (fun e => decide (e.1 ≠ k))

/-- Modelled from the spec: get_history of src/data/fetcher.py (spec section
4.5). With cache enabled and refresh false a cache hit is returned immediately
with no provider call; otherwise the adapter named by source is invoked, the
raw result normalized, written to the cache when caching is enabled, and
returned. The adapter and the Schema Normalizer are parameters. -/
def getHistory (adapter : String → String → String → String → CsvFile)
    (normalize : CsvFile → CsvFile) (st : FetcherState)
    (symbol startD endD source interval : String) (cache refresh : Bool) :
    CsvFile × FetcherState :=
  let key : CacheKey := (symbol, source, interval)
  match (if cache && !refresh then cacheGet st.store key else none) with
  | some s => (s, st)
  | none =>
      let res := normalize (adapter symbol startD endD interval)
      let newStore := if cache then cachePut st.store key res else st.store
      (res, { store := newStore, adapterCalls := st.adapterCalls + 1 })

/-- A freshly put entry is the one the cache returns for its key. -/
theorem cacheGet_cachePut (c : List (CacheKey × CsvFile)) (k : CacheKey) (v : CsvFile) :
    cacheGet (cachePut c k v) k = some v := by
  simp [cacheGet, cachePut]

end Fetcher

/-- C1: with cache enabled and refresh false, after a first get_history call has
populated the cache, a second identical call returns the same Series and leaves
the adapter call count unchanged, for every adapter, normalizer, prior state and
request. Proved for the dispatcher modelled from spec section 4.5. -/
theorem claim1_cached_second_call_skips_adapter
    (adapter : String → String → String → String → CsvFile)
    (normalize : CsvFile → CsvFile) (st : Fetcher.FetcherState)
    (symbol startD endD source interval : String) :
    (Fetcher.getHistory adapter normalize
        (Fetcher.getHistory adapter normalize st symbol startD endD source interval true false).2
        symbol startD endD source interval true false).1 =
      (Fetcher.getHistory adapter normalize st symbol startD endD source interval true false).1 ∧
    (Fetcher.getHistory adapter normalize
        (Fetcher.getHistory adapter normalize st symbol startD endD source interval true false).2
        symbol startD endD source interval true false).2.adapterCalls =
      (Fetcher.getHistory adapter normalize st symbol startD endD source interval true false).2.adapterCalls := by
  cases h : Fetcher.cacheGet st.store (symbol, source, interval) with
  | some v => simp [Fetcher.getHistory, h]
  | none => simp [Fetcher.getHistory, h, Fetcher.cacheGet_cachePut]

namespace MovingAverage

/-- State of the MovingAverage strategy of SimpleMovingAverage.py lines 30-57:
the two window sizes, the configured order size, the recent close prices (a
deque with maxlen long_window), the position tracker and the last two SMAs. -/
structure MAState where
  shortWindow : Nat
  longWindow : Nat
  orderSize : Nat
  prices : List Rat
  position : Int
  lastShortSma : Option Rat
  lastLongSma : Option Rat
deriving DecidableEq

/-- Constructor of SimpleMovingAverage.py lines 30-50: validated configuration,
empty price deque, flat position, no previous SMAs. A short window not smaller
than the long one raises ValueError, modelled as none. -/
def mkStrategy (shortWindow longWindow orderSize : Nat) : Option MAState :=
  if longWindow ≤ shortWindow then none
  else some { shortWindow := shortWindow, longWindow := longWindow, orderSize := orderSize,
              prices := [], position := 0, lastShortSma := none, lastLongSma := none }

/-- on_start of SimpleMovingAverage.py lines 52-57: clear the deque, flatten the
position, forget the previous SMAs. -/
def onStart (st : MAState) : MAState :=
  { st with prices := [], position := 0, lastShortSma := none, lastLongSma := none }

/-- on_bar of SimpleMovingAverage.py lines 59-74: append the close price to the
deque; the maxlen of the deque drops the oldest entries beyond long_window. -/
def onBar (st : MAState) (close : Rat) : MAState :=
  if st.longWindow < (st.prices ++ [close]).length then
    { st with prices :=
        (st.prices ++ [close]).drop ((st.prices ++ [close]).length - st.longWindow) }
  else
    { st with prices := st.prices ++ [close] }

/-- A sequence of bars fed to on_bar in order. -/
def applyBars (st : MAState) (bars : List Rat) : MAState :=
  bars.foldl onBar st

/-- The last entry of a rolling mean with window w: the mean of the final w
prices, SimpleMovingAverage.py lines 84-86. -/
def smaLast (ps : List Rat) (w : Nat) : Rat :=
  ((ps.drop (ps.length - w)).foldl (· + ·) 0) / (w : Rat)

/-- The signal dict returned by generate_signals. -/
structure SignalDict where
  signal : Option String
  size : Nat
deriving DecidableEq

/-- generate_signals of SimpleMovingAverage.py lines 76-109: with fewer than
long_window observed prices return a none signal of size zero and change
nothing; otherwise compute the SMAs, detect a crossover against the previous
SMAs when present, update the stored SMAs and the position, and return the
signal with the configured size. -/
def generateSignals (st : MAState) : SignalDict × MAState :=
  if st.prices.length < st.longWindow then ({ signal := none, size := 0 }, st)
  else
    let shortSma := smaLast st.prices st.shortWindow
    let longSma := smaLast st.prices st.longWindow
    let sig : Option String :=
      match st.lastShortSma, st.lastLongSma with
      | some ls, some ll =>
          if ls ≤ ll ∧ longSma < shortSma then some "buy"
          else if ll ≤ ls ∧ shortSma < longSma then some "sell"
          else none
      | _, _ => none
    let newPos : Int := if sig = some "buy" then 1 else if sig = some "sell" then 0 else st.position
    ({ signal := sig, size := if sig.isSome then st.orderSize else 0 },
     { st with lastShortSma := some shortSma, lastLongSma := some longSma, position := newPos })

/-- on_bar does not change the configured long window. -/
theorem onBar_longWindow (st : MAState) (c : Rat) :
    (onBar st c).longWindow = st.longWindow := by
  unfold onBar
  split <;> rfl

/-- Feeding bars does not change the configured long window. -/
theorem applyBars_longWindow (bars : List Rat) (st : MAState) :
    (applyBars st bars).longWindow = st.longWindow := by
  induction bars generalizing st with
  | nil => rfl
  | cons b bs ih => simpa [applyBars, onBar_longWindow] using ih (onBar st b)

/-- The deque length after one bar: one more price, capped at long_window. -/
theorem onBar_prices_length (st : MAState) (c : Rat) :
    (onBar st c).prices.length = min (st.prices.length + 1) st.longWindow := by
  unfold onBar
  split
  next h =>
    simp only [List.length_drop, List.length_append, List.length_cons, List.length_nil] at h ⊢
    omega
  next h =>
    simp only [List.length_append, List.length_cons, List.length_nil] at h ⊢
    omega

/-- The deque length after a run of bars: the number of bars plus the starting
length, capped at long_window. -/
theorem applyBars_prices_length (bars : List Rat) (st : MAState)
    (h : st.prices.length ≤ st.longWindow) :
    (applyBars st bars).prices.length = min (st.prices.length + bars.length) st.longWindow := by
  induction bars generalizing st with
  | nil =>
      simp only [applyBars, List.foldl_nil, List.length_nil]
      omega
  | cons b bs ih =>
      have h1 := onBar_prices_length st b
      have h2 : (onBar st b).prices.length ≤ (onBar st b).longWindow := by
        rw [h1, onBar_longWindow]
        omega
      have h3 := ih (onBar st b) h2
      have h4 : applyBars st (b :: bs) = applyBars (onBar st b) bs := rfl
      rw [h4, h3, h1, onBar_longWindow]
      simp only [List.length_cons]
      omega

end MovingAverage

/-- C10: fewer than long_window close prices observed through on_bar since the
last on_start make generate_signals return a none signal of size zero and leave
the state untouched, so no buy or sell is emitted during warm-up:
SimpleMovingAverage.py lines 81-82. -/
theorem claim10_warmup_no_signal (st : MovingAverage.MAState) (bars : List Rat)
    (h : bars.length < st.longWindow) :
    MovingAverage.generateSignals (MovingAverage.applyBars (MovingAverage.onStart st) bars) =
      ({ signal := none, size := 0 }, MovingAverage.applyBars (MovingAverage.onStart st) bars) := by
  have hlw : (MovingAverage.applyBars (MovingAverage.onStart st) bars).longWindow
      = st.longWindow := MovingAverage.applyBars_longWindow bars (MovingAverage.onStart st)
  have hlen : (MovingAverage.applyBars (MovingAverage.onStart st) bars).prices.length
      = bars.length := by
    have h0 : (MovingAverage.onStart st).prices.length ≤ (MovingAverage.onStart st).longWindow := by
      simp [MovingAverage.onStart]
    have h5 := MovingAverage.applyBars_prices_length bars (MovingAverage.onStart st) h0
    have h6 : (MovingAverage.onStart st).prices.length = 0 := rfl
    have h7 : (MovingAverage.onStart st).longWindow = st.longWindow := rfl
    rw [h6, h7] at h5
    rw [h5]
    omega
  have hcond : (MovingAverage.applyBars (MovingAverage.onStart st) bars).prices.length <
      (MovingAverage.applyBars (MovingAverage.onStart st) bars).longWindow := by
    rw [hlen, hlw]; exact h
  simp only [MovingAverage.generateSignals, if_pos hcond]

/-- Concrete strategy state with the default windows 5 and 20, used by the C10
witness. -/
def exMA : MovingAverage.MAState :=
  { shortWindow := 5, longWindow := 20, orderSize := 1, prices := [],
    position := 0, lastShortSma := none, lastLongSma := none }

/-- Witness for C10: three bars against a long window of twenty. -/
theorem claim10_witness :
    ([(1 : Rat), 2, 3].length < exMA.longWindow) ∧
    MovingAverage.generateSignals (MovingAverage.applyBars (MovingAverage.onStart exMA) [1, 2, 3]) =
      ({ signal := none, size := 0 },
        MovingAverage.applyBars (MovingAverage.onStart exMA) [1, 2, 3]) :=
  ⟨by decide, claim10_warmup_no_signal exMA [1, 2, 3] (by decide)⟩
